import Mathlib

/-
Verification of the core components of the beartype repository against its
natural-language specification.

The development shallowly embeds, in order:

1. the memoized call cache of `beartype/_util/cache/utilcachecall.py`
   (the `callable_cached` decorator and its inner `_callable_cached` wrapper);
2. the hint reducer of `beartype/_check/conv/convreduce.py` (`reduce_hint`);
3. the sign logic hierarchy of `beartype/_check/logic/logiccls.py`;
4. the violation cause finders of
   `beartype/_check/error/_pep/pep484585/errpep484585sequence.py`
   (`find_cause_sequence_args_1` and `find_cause_tuple_fixed`).

Python runtime values are embedded as the inductive type `Val`; fallible
Python code returns `Except PyExc _`.  Helper callables of the repository
that are referenced by the embedded modules but whose source modules are not
part of the embedded core (for example `ViolationCause.permute`) are modelled
from the specification; each such definition carries a doc comment starting
with the words "Modelled from the spec".
-/

-- ....................{ PYTHON VALUES                      }....................

/-- Embedded Python runtime values, as needed by the embedded modules: machine
integers, strings, `None`, the two `Iota()` cache sentinels
(`_SENTINEL_KWARGS_KEYS` and `_SENTINEL_KWARGS_VALUES` of
`utilcachecall.py`), lists, and tuples. -/
inductive Val where
  | int (n : Int)
  | str (s : String)
  | noneV
  | sentinelKwargsKeys
  | sentinelKwargsValues
  | list (items : List Val)
  | tuple (items : List Val)

mutual

/-- Structural equality of embedded Python values, modelling the `__eq__`
comparison used by Python dictionaries on cache keys. -/
def Val.beq : Val → Val → Bool
  | .int a, .int b => a == b
  | .str a, .str b => a == b
  | .noneV, .noneV => true
  | .sentinelKwargsKeys, .sentinelKwargsKeys => true
  | .sentinelKwargsValues, .sentinelKwargsValues => true
  | .list as_, .list bs => Val.beqList as_ bs
  | .tuple as_, .tuple bs => Val.beqList as_ bs
  | _, _ => false

/-- Elementwise structural equality of lists of embedded Python values. -/
def Val.beqList : List Val → List Val → Bool
  | [], [] => true
  | a :: as_, b :: bs => Val.beq a b && Val.beqList as_ bs
  | _, _ => false

end

mutual

/-- Hashability of an embedded Python value: lists are unhashable, tuples are
hashable exactly when every item is, every other embedded value is hashable.
This models which flattened cache keys raise `TypeError` when used as a
dictionary key in `_callable_cached`. -/
def Val.hashable : Val → Bool
  | .list _ => false
  | .tuple items => Val.hashableList items
  | _ => true

/-- Hashability of every value in a list of embedded Python values. -/
def Val.hashableList : List Val → Bool
  | [] => true
  | v :: vs => Val.hashable v && Val.hashableList vs

end

/-- Python truthiness test (`not pith` in the source negates it): zero
integers, empty strings, empty lists, empty tuples and `None` are falsy. -/
def Val.is_falsy : Val → Bool
  | .int n => n == 0
  | .str s => s.isEmpty
  | .noneV => true
  | .list items => items.isEmpty
  | .tuple items => items.isEmpty
  | _ => false

/-- Python `len` on the embedded containers (`len(pith)` in the source). -/
def Val.len : Val → Nat
  | .str s => s.length
  | .list items => items.length
  | .tuple items => items.length
  | _ => 0

/-- Python subscripting `pith[i]` on the embedded containers, for in-range
indices; out-of-range indices yield `None` (a modelling default never reached
by the theorems below, which index by `r % len` into non-empty containers). -/
def Val.getItem : Val → Nat → Val
  | .list items, i => items.getD i .noneV
  | .tuple items, i => items.getD i .noneV
  | _, _ => .noneV

/-- Python `enumerate(pith)` on the embedded containers. -/
def Val.enumerate : Val → List (Nat × Val)
  | .list items => items.enum
  | .tuple items => items.enum
  | _ => []

-- ....................{ MEMOIZED CALL CACHE                }....................

/-- An embedded Python exception.  The flag records whether the exception is a
`TypeError`, the class that Python raises for unhashable dictionary keys and
the class caught by the `except TypeError` fallback of `_callable_cached`. -/
structure PyExc where
  is_type_error : Bool
  msg : String
deriving DecidableEq

/-- An embedded Python callable: the wrapped callable receives positional
arguments and (insertion-ordered) keyword arguments and either returns a value
or raises an exception. -/
abbrev PyFunc := List Val → List (String × Val) → Except PyExc Val

/-- The mutable state of one memoized wrapper: the two dictionaries
`params_flat_to_return_value` and `params_flat_to_exception` created by
`callable_cached`, keyed by the flattened parameter tuple. -/
structure CacheState where
  params_flat_to_return_value : List (Val × Val)
  params_flat_to_exception : List (Val × PyExc)

/-- The initial cache state: both dictionaries start out empty. -/
def CacheState.init : CacheState := ⟨[], []⟩

/-- Dictionary lookup (`dict.get(key, SENTINEL)` in the source), comparing
keys by Python value equality. -/
def cache_get {β : Type} : List (Val × β) → Val → Option β
  | [], _ => none
  | (k2, v) :: rest, k => if Val.beq k2 k then some v else cache_get rest k

/-- Dictionary insertion (`dict[key] = value` in the source).  Keys are never
overwritten by the wrapper once written, so prepending suffices. -/
def cache_set {β : Type} (m : List (Val × β)) (k : Val) (v : β) :
    List (Val × β) :=
  (k, v) :: m

/-- The flattening of a call into a single cache key, from the body of
`_callable_cached`:

* with keyword arguments, the concatenation of the positional arguments, the
  `_SENTINEL_KWARGS_KEYS` sentinel, the keyword argument names, the
  `_SENTINEL_KWARGS_VALUES` sentinel, and the keyword argument values;
* with exactly one positional argument and no keyword arguments, that
  argument itself, unwrapped;
* otherwise the tuple of the positional arguments. -/
def flatten_params (args : List Val) (kwargs : List (String × Val)) : Val :=
  if kwargs.isEmpty = false then
    .tuple (args ++
      [.sentinelKwargsKeys] ++ kwargs.map (fun kv => .str kv.1) ++
      [.sentinelKwargsValues] ++ kwargs.map (fun kv => kv.2))
  else
    match args with
    | [arg] => arg
    | _ => .tuple args

/-- The observable outcome of one call to the memoized wrapper: the value
returned or exception raised to the caller, the cache state after the call,
and the number of times the wrapped callable was invoked during the call. -/
structure CallOutcome where
  result : Except PyExc Val
  state : CacheState
  func_calls : Nat

/-- One call of the closure `_callable_cached` that `callable_cached` wraps
around `func`, embedded over an explicit cache state.  Mirrors the source
control flow line by line:

* an unhashable flattened key makes the first `dict.get` raise `TypeError`,
  which the trailing `except TypeError` handler turns into one direct
  uncached call of `func` (the keyword-argument advisory warning is a side
  effect with no bearing on the outcome and is not modelled);
* a hit in `params_flat_to_exception` re-raises the stored exception; that
  `raise` statement sits inside the same `try` block, so a stored `TypeError`
  is caught by the trailing `except TypeError` handler, which then calls
  `func` directly instead;
* a hit in `params_flat_to_return_value` returns the stored value;
* otherwise `func` is called: a returned value is stored and returned, a
  raised exception is stored and re-raised -- and that re-raise, again inside
  the same `try` block, is caught by the trailing handler when the exception
  is a `TypeError`, producing a second direct call of `func`. -/
def _callable_cached (func : PyFunc) (st : CacheState)
    (args : List Val) (kwargs : List (String × Val)) : CallOutcome :=
  let params_flat := flatten_params args kwargs
  if params_flat.hashable = false then
    { result := func args kwargs, state := st, func_calls := 1 }
  else
    match cache_get st.params_flat_to_exception params_flat with
    | some exception =>
      if exception.is_type_error then
        { result := func args kwargs, state := st, func_calls := 1 }
      else
        { result := .error exception, state := st, func_calls := 0 }
    | none =>
      match cache_get st.params_flat_to_return_value params_flat with
      | some return_value =>
        { result := .ok return_value, state := st, func_calls := 0 }
      | none =>
        match func args kwargs with
        | .ok return_value =>
          { result := .ok return_value,
            state :=
              { st with params_flat_to_return_value :=
                  (cache_set st.params_flat_to_return_value params_flat
                    return_value) },
            func_calls := 1 }
        | .error exception =>
          let st2 :=
            { st with params_flat_to_exception :=
                cache_set st.params_flat_to_exception params_flat exception }
          if exception.is_type_error then
            { result := func args kwargs, state := st2, func_calls := 2 }
          else
            { result := .error exception, state := st2, func_calls := 1 }

/-- Kinds of parameters a Python callable declares, after
`inspect.Parameter.kind`. -/
inductive ParamKind where
  | positional_only
  | positional_or_keyword
  | keyword_only
  | var_positional
  | var_keyword
deriving DecidableEq

/-- The signature of a callable passed to `callable_cached`, abstracted to
the list of its declared parameter kinds. -/
structure FuncDecl where
  params : List ParamKind

/-- The `_PARAM_KINDS_UNSUPPORTED` constant of `utilcachecall.py`: the set of
parameter kinds the decorator rejects. -/
def _PARAM_KINDS_UNSUPPORTED : List ParamKind :=
  [.var_keyword, .var_positional]

/-- Modelled from the spec: the `is_func_arg_variadic` tester of
`beartype._util.func.utilfuncarg` (its module is outside the embedded core),
true when the callable declares a parameter of an unsupported kind, namely a
variadic positional parameter resembling `*args` or a variadic keyword
parameter resembling `**kwargs`. -/
def is_func_arg_variadic (func : FuncDecl) : Bool :=
  func.params.any (fun kind => _PARAM_KINDS_UNSUPPORTED.contains kind)

/-- The wrap-time half of the `callable_cached` decorator: if the wrappee
accepts variadic arguments, raise `_BeartypeUtilCallableCachedException`
before any wrapper exists to call; otherwise succeed, producing the closure
whose per-call behavior is `_callable_cached`. -/
def callable_cached (func : FuncDecl) : Except PyExc Unit :=
  if is_func_arg_variadic func then
    .error ⟨false, "@callable_cached variadic arguments uncacheable."⟩
  else
    .ok ()

-- ....................{ HINTS & SIGNS                      }....................

/-- Builtin Python classes usable as plain type hints and as `isinstance`
targets by the embedded modules. -/
inductive PyClass where
  | int
  | float
  | complex
  | str
  | list
  | tuple
  | noneType
  | object
deriving DecidableEq

/-- The human-readable name of a builtin class. -/
def PyClass.name : PyClass → String
  | .int => "int"
  | .float => "float"
  | .complex => "complex"
  | .str => "str"
  | .tuple => "tuple"
  | .list => "list"
  | .noneType => "NoneType"
  | .object => "object"

/-- Embedded type hints, covering the hint kinds the embedded modules
branch on:

* `cls c`: a plain isinstanceable class used as a hint (no sign);
* `noneH`: the `None` singleton used as a hint;
* `union hs`: a union hint (the shape of the precomputed numeric-tower
  unions);
* `typeVar bound`: a type variable carrying its bound constraint hint, if
  any (the `get_hint_pep484_typevar_bound_or_none` accessor of this field is
  outside the embedded core);
* `annotated metahint is_beartype`: a PEP 593 metahint over `metahint`, with
  `is_beartype` the verdict of the `is_hint_pep593_beartype` oracle (outside
  the embedded core) on whether its metadata is a beartype validator;
* `seqArgs1 child`: a single-argument variadic sequence hint such as
  `list[T]`, with origin type `list`; a child of `none` is an ignorable
  child hint (the source reads it as `hint_childs[0]`);
* `tupleFixed childs`: a fixed-length tuple hint, with one child hint slot
  per item and `none` marking an ignorable child;
* `invalid`: an object that is not a valid type hint at all.

The hint kinds reduced by branches of `reduce_hint` that this grammar cannot
express (typed NumPy arrays, subclass hints, IO generics, and the hint kinds
of the registered fallback reducers) are omitted; every embedded branch is
faithful to its source. -/
inductive Hint where
  | cls (c : PyClass)
  | noneH
  | union (hints : List Hint)
  | typeVar (bound : Option Hint)
  | annotated (metahint : Hint) (is_beartype : Bool)
  | seqArgs1 (child : Option Hint)
  | tupleFixed (childs : List (Option Hint))
  | invalid

/-- Signs classifying hint shapes, after `datapepsigns`. -/
inductive HintSign where
  | noneSingleton
  | union
  | typeVar
  | annotated
  | sequenceArgs1
  | tupleFixed
deriving DecidableEq

/-- Modelled from the spec: the hint classifier
`get_hint_pep_sign_or_none` (an opaque oracle outside the embedded core)
returning the sign of a hint, or no sign for a plain unstructured value
space such as an isinstanceable class or a non-hint object. -/
def get_hint_pep_sign_or_none : Hint → Option HintSign
  | .cls _ => none
  | .invalid => none
  | .noneH => some .noneSingleton
  | .union _ => some .union
  | .typeVar _ => some .typeVar
  | .annotated _ _ => some .annotated
  | .seqArgs1 _ => some .sequenceArgs1
  | .tupleFixed _ => some .tupleFixed

-- ....................{ HINT REDUCER                       }....................

/-- Modelled from the spec: the `Pep484TowerFloat` precomputed union of
`beartype._data.datatyping` (outside the embedded core), admitting the
narrower numeric kind `int` wherever `float` is accepted. -/
def Pep484TowerFloat : Hint := .union [.cls .float, .cls .int]

/-- Modelled from the spec: the `Pep484TowerComplex` precomputed union of
`beartype._data.datatyping` (outside the embedded core), admitting the
narrower numeric kinds `float` and `int` wherever `complex` is accepted. -/
def Pep484TowerComplex : Hint := .union [.cls .complex, .cls .float, .cls .int]

/-- The beartype configuration record, restricted to the flags the embedded
modules consult: `is_pep484_tower` enables the implicit numeric tower and
`is_color` enables colorized diagnostic text. -/
structure BeartypeConf where
  is_pep484_tower : Bool
  is_color : Bool
deriving DecidableEq

/-- Modelled from the spec: the `die_unless_hint` validator of
`beartype._util.hint.utilhinttest` (outside the embedded core), raising a
descriptive error on an object that is not a valid type hint and passing
otherwise. -/
def die_unless_hint (hint : Hint) (exception_label : String) :
    Except PyExc Unit :=
  match hint with
  | .invalid => .error ⟨false, exception_label ++ "invalid type hint"⟩
  | _ => .ok ()

/-- The `_HINT_SIGN_TO_REDUCER` fallback table of `convreduce.py`.  Its three
registered reducers (for `HintSignNewType`, `HintSignDataclassInitVar` and
`HintSignTypedDict`) all act on hint kinds outside the embedded hint grammar,
so the table holds no entry for any embedded sign and the fallback branch
preserves every embedded hint unchanged, exactly as the source does for
unregistered signs. -/
def _HINT_SIGN_TO_REDUCER (sign : HintSign) :
    Option (Hint → String → Except PyExc Hint) :=
  match sign with
  | _ => none

/-- The `reduce_hint` decision list of `convreduce.py`, mirroring the source
branch for branch over the embedded hint grammar:

1. an unidentifiable hint (no sign) is expanded to the matching precomputed
   numeric-tower union when the configuration enables the tower and the hint
   is literally `float` or `complex`; any other unidentifiable hint passes
   through `die_unless_hint` and is returned unchanged;
2. the `None` singleton reduces to its type `NoneType`;
3. a type variable reduces to its bound constraint hint when one exists;
4. a beartype-agnostic PEP 593 metahint reduces to the hint it annotates,
   while a beartype-specific one is preserved;
5. any other sign falls back to the `_HINT_SIGN_TO_REDUCER` table and is
   preserved when no reducer is registered for it.

The memoization of the source function by `@callable_cached` is the cache
component embedded above and orthogonal to this per-call behavior. -/
def reduce_hint (hint : Hint) (conf : BeartypeConf)
    (exception_label : String) : Except PyExc Hint :=
  match get_hint_pep_sign_or_none hint with
  | none =>
    match hint, conf.is_pep484_tower with
    | .cls .float, true => .ok Pep484TowerFloat
    | .cls .complex, true => .ok Pep484TowerComplex
    | _, _ =>
      match die_unless_hint hint exception_label with
      | .error exception => .error exception
      | .ok _ => .ok hint
  | some hint_sign =>
    match hint with
    | .noneH => .ok (.cls .noneType)
    | _ =>
      if hint_sign = .typeVar then
        match hint with
        | .typeVar (some hint_bound) => .ok hint_bound
        | _ => .ok hint
      else if hint_sign = .annotated then
        match hint with
        | .annotated metahint is_beartype =>
          if is_beartype then .ok hint else .ok metahint
        | _ => .ok hint
      else
        match _HINT_SIGN_TO_REDUCER hint_sign with
        | some hint_reducer => hint_reducer hint exception_label
        | none => .ok hint

-- ....................{ SIGN LOGIC                         }....................

/-- The single-argument container logic descriptors of `logiccls.py`,
restricted to their semantic content:

* `is_var_random_int_needed` is the flag instructing the generation layer to
  provision a pseudo-random integer for the generated check;
* `sample_index` is the denotation of the `pith_child_expr_format` snippet:
  given the per-call random integer and the pith length, the index of the
  single item the generated check samples. -/
structure HintSignLogicContainerArgs1 where
  is_var_random_int_needed : Bool
  sample_index : Nat → Nat → Nat

/-- The `HintSignLogicReiterableArgs1` descriptor: its child expression
`next(iter(pith))` deterministically samples the structurally first item, and
no random integer is needed. -/
def hintSignLogicReiterableArgs1 : HintSignLogicContainerArgs1 :=
  { is_var_random_int_needed := false,
    sample_index := fun _ _ => 0 }

/-- The `HintSignLogicSequenceArgs1` descriptor: its child expression
`pith[random_int % len(pith)]` samples the item at the random integer modulo
the pith length, and a random integer is needed. -/
def hintSignLogicSequenceArgs1 : HintSignLogicContainerArgs1 :=
  { is_var_random_int_needed := true,
    sample_index := fun random_int len => random_int % len }

-- ....................{ VIOLATION CAUSE FINDER             }....................

/-- The `ViolationCause` diagnostic record, restricted to the fields the
embedded finders read: the pith, the hint, the configuration, the optional
pseudo-random integer drawn by the generated wrapper, and the optional
human-readable explanation. -/
structure ViolationCause where
  pith : Val
  hint : Hint
  conf : BeartypeConf
  random_int : Option Nat
  cause_str_or_none : Option String

/-- Modelled from the spec: the copy-with-override `ViolationCause.permute`
call `cause.permute(pith=..., hint=...)` (its module `_errcause` is outside
the embedded core), deriving a child cause from a parent without mutating the
parent. -/
def ViolationCause.permute_pith_hint (cause : ViolationCause)
    (pith : Val) (hint : Hint) : ViolationCause :=
  { cause with pith := pith, hint := hint }

/-- Modelled from the spec: the copy-with-override `ViolationCause.permute`
call `cause.permute(cause_str_or_none=...)`, and equally the functional
rendering of the source assigning `cause_deep.cause_str_or_none`. -/
def ViolationCause.permute_cause_str (cause : ViolationCause)
    (cause_str_or_none : Option String) : ViolationCause :=
  { cause with cause_str_or_none := cause_str_or_none }

/-- The number of child type hints subscripting a hint
(`cause.hint_childs` in the source, with `none` an ignorable child). -/
def Hint.hint_childs : Hint → List (Option Hint)
  | .seqArgs1 child => [child]
  | .tupleFixed childs => childs
  | _ => []

/-- The isinstanceable origin type of a hint (`list` for `list[str]`,
`tuple` for fixed-length tuple hints), when one exists. -/
def Hint.origin_type : Hint → Option PyClass
  | .cls c => some c
  | .seqArgs1 _ => some .list
  | .tupleFixed _ => some .tuple
  | _ => none

/-- Python `isinstance` over the embedded values and builtin classes. -/
def Val.isinstance : Val → PyClass → Bool
  | _, .object => true
  | .int _, .int => true
  | .str _, .str => true
  | .list _, .list => true
  | .tuple _, .tuple => true
  | .noneV, .noneType => true
  | _, _ => false

/-- Modelled from the spec: the `color_type` helper of `utiltextansi`
(outside the embedded core), wrapping diagnostic text in ANSI color escapes
exactly when the configuration colorizes output. -/
def color_type (text : String) (is_color : Bool) : String :=
  if is_color then "\x1b[1m" ++ text ++ "\x1b[0m" else text

/-- The runtime type name of a pith. -/
def Val.type_name : Val → String
  | .int _ => "int"
  | .str _ => "str"
  | .noneV => "NoneType"
  | .list _ => "list"
  | .tuple _ => "tuple"
  | .sentinelKwargsKeys => "Iota"
  | .sentinelKwargsValues => "Iota"

/-- Modelled from the spec: the `prefix_pith_type` helper of
`utiltextprefix` (outside the embedded core), prefixing an explanation with
the name of the runtime type of the enclosing pith. -/
def prefix_pith_type (pith : Val) (is_color : Bool) : String :=
  color_type pith.type_name is_color ++ " "

mutual

/-- Modelled from the spec: the `represent_pith` helper of `utiltextrepr`
(outside the embedded core), yielding a Python representation of a pith. -/
def represent_pith : Val → String
  | .int n => toString n
  | .str s => "\x27" ++ s ++ "\x27"
  | .noneV => "None"
  | .sentinelKwargsKeys => "Iota()"
  | .sentinelKwargsValues => "Iota()"
  | .list items => "[" ++ String.intercalate ", " (represent_pith_list items) ++ "]"
  | .tuple items => "(" ++ String.intercalate ", " (represent_pith_list items) ++ ")"

/-- Representations of each value in a list of piths. -/
def represent_pith_list : List Val → List String
  | [] => []
  | v :: vs => represent_pith v :: represent_pith_list vs

end

/-- Modelled from the spec: the `find_cause_type_instance_origin` leaf finder
of `_errtype` (outside the embedded core), the one step that both re-verifies
and attributes: its output cause carries an explanation exactly when the pith
is not a runtime instance of the isinstanceable origin type of the hint. -/
def find_cause_type_instance_origin (cause : ViolationCause) :
    ViolationCause :=
  match cause.hint.origin_type with
  | none => cause.permute_cause_str none
  | some origin =>
    if cause.pith.isinstance origin then
      cause.permute_cause_str none
    else
      cause.permute_cause_str (some
        (represent_pith cause.pith ++ " not instance of " ++
          color_type origin.name cause.conf.is_color))

/-- Modelled from the spec: the `is_hint_pep484585_tuple_empty` tester of
`utilpep484585tuple` (outside the embedded core), true exactly when the hint
denotes the empty fixed-length tuple. -/
def is_hint_pep484585_tuple_empty (hint : Hint) : Bool :=
  match hint with
  | .tupleFixed childs => childs.isEmpty
  | _ => false

/-- The `pith_enumerator` local of `find_cause_sequence_args_1`: when the
call carries the pseudo-random integer drawn by the generated wrapper, an
iterator over only the 2-tuple of the index `random_int % len(pith)` and the
item at that index, computed exactly as in the generated wrapper; otherwise
`enumerate(pith)`, an iterator over every index and item of the sequence. -/
def sequence_pith_enumerator (cause : ViolationCause) : List (Nat × Val) :=
  match cause.random_int with
  | some random_int =>
    let pith_item_index := random_int % cause.pith.len
    [(pith_item_index, cause.pith.getItem pith_item_index)]
  | none => cause.pith.enumerate

/-- The per-item loop shared by the two embedded finders: for each enumerated
item, derive a child cause by permuting the pith and hint and run the
recursive cause finder `fc` on it ; on the first item whose deep cause
carries an explanation, prefix that explanation with the enclosing container
type and the item index and return it immediately; if no item produces a
cause, return the input cause unchanged.  The recursive finder
`ViolationCause.find_cause` dispatching on the child hint sign lives outside
the embedded core, so the loop takes it as the parameter `fc`. -/
def find_cause_items (fc : ViolationCause → ViolationCause)
    (cause : ViolationCause) (hint_child : Hint) :
    List (Nat × Val) → ViolationCause
  | [] => cause
  | (pith_item_index, pith_item) :: rest =>
    let cause_deep := fc (cause.permute_pith_hint pith_item hint_child)
    match cause_deep.cause_str_or_none with
    | some cause_str =>
      cause_deep.permute_cause_str (some
        (prefix_pith_type cause.pith cause.conf.is_color ++
          "index " ++ color_type (toString pith_item_index)
            cause.conf.is_color ++
          " item " ++ cause_str))
    | none => find_cause_items fc cause hint_child rest

/-- The `find_cause_sequence_args_1` finder of `errpep484585sequence.py` for
single-argument variadic sequence hints, mirroring the source:

1. if the pith is not an instance of the origin type of the hint, return the
   shallow cause of `find_cause_type_instance_origin`;
2. else if the sequence is empty or the single child hint is ignorable,
   return the input cause unchanged;
3. else enumerate either only the randomly sampled item or every item (see
   `sequence_pith_enumerator`) and run the per-item loop.

The defensive assertions of the source (the sign is a one-argument sequence
sign with the expected child count) hold by construction of the `seqArgs1`
hint shape this finder matches; a cause whose hint is of any other shape
falls outside those assertions and is returned unchanged. -/
def find_cause_sequence_args_1 (fc : ViolationCause → ViolationCause)
    (cause : ViolationCause) : ViolationCause :=
  match cause.hint with
  | .seqArgs1 hint_child =>
    let cause_shallow := find_cause_type_instance_origin cause
    if cause_shallow.cause_str_or_none.isSome then
      cause_shallow
    else
      match hint_child, cause.pith.is_falsy with
      | none, _ => cause
      | some _, true => cause
      | some hc, false =>
        find_cause_items fc cause hc (sequence_pith_enumerator cause)
  | _ => cause

/-- The per-index loop of `find_cause_tuple_fixed`: each item is paired with
the child hint at its index; ignorable child hints are skipped; otherwise the
recursion and the index-prefixed short-circuit are exactly as in the
sequence loop. -/
def find_cause_tuple_items (fc : ViolationCause → ViolationCause)
    (cause : ViolationCause) :
    List ((Nat × Val) × Option Hint) → ViolationCause
  | [] => cause
  | ((_, _), none) :: rest => find_cause_tuple_items fc cause rest
  | ((pith_item_index, pith_item), some hint_child) :: rest =>
    let cause_deep := fc (cause.permute_pith_hint pith_item hint_child)
    match cause_deep.cause_str_or_none with
    | some cause_str =>
      cause_deep.permute_cause_str (some
        (prefix_pith_type cause.pith cause.conf.is_color ++
          "index " ++ color_type (toString pith_item_index)
            cause.conf.is_color ++
          " item " ++ cause_str))
    | none => find_cause_tuple_items fc cause rest

/-- The `find_cause_tuple_fixed` finder of `errpep484585sequence.py` for
fixed-length tuple hints, mirroring the source:

1. if the pith is not a tuple, return the shallow cause;
2. else if the hint is the empty-tuple hint, return the cause unchanged for
   an empty pith and a non-emptiness explanation otherwise;
3. else if the pith length differs from the declared child-hint count,
   return a length-mismatch explanation naming both lengths;
4. else run the per-item loop over the items paired with their child hints,
   skipping ignorable child hints. -/
def find_cause_tuple_fixed (fc : ViolationCause → ViolationCause)
    (cause : ViolationCause) : ViolationCause :=
  match cause.hint with
  | .tupleFixed hint_childs =>
    let cause_shallow := find_cause_type_instance_origin cause
    if cause_shallow.cause_str_or_none.isSome then
      cause_shallow
    else if is_hint_pep484585_tuple_empty cause.hint then
      if cause.pith.is_falsy then
        cause
      else
        cause.permute_cause_str (some
          ("tuple " ++ represent_pith cause.pith ++ " non-empty"))
    else if cause.pith.len ≠ hint_childs.length then
      cause.permute_cause_str (some
        ("tuple " ++ represent_pith cause.pith ++ " length " ++
          toString cause.pith.len ++ " != " ++ toString hint_childs.length))
    else
      find_cause_tuple_items fc cause (cause.pith.enumerate.zip hint_childs)
  | _ => cause

/-- Modelled from the spec: the `ViolationCause.find_cause` dispatcher of
`_errcause` (outside the embedded core), selecting the finder matching the
sign of the hint of the cause: plain class hints get the leaf isinstance
check, one-argument sequence hints and fixed-length tuple hints get the two
embedded finders, and other signs are outside the embedded scope.  The fuel
argument bounds the recursion depth; theorems instantiate it above the hint
depth of their concrete causes. -/
def find_cause : Nat → ViolationCause → ViolationCause
  | 0, cause => cause
  | fuel + 1, cause =>
    match get_hint_pep_sign_or_none cause.hint with
    | none => find_cause_type_instance_origin cause
    | some .sequenceArgs1 => find_cause_sequence_args_1 (find_cause fuel) cause
    | some .tupleFixed => find_cause_tuple_fixed (find_cause fuel) cause
    | some _ => cause

-- ....................{ CONCRETE FIXTURES                  }....................

/-- A pure wrapped callable returning the integer 7 on every call, used to
instantiate cache theorems at concrete inputs. -/
def func_pure7 : PyFunc := fun _ _ => .ok (.int 7)

/-- A wrapped callable raising a `TypeError` on every call, exhibiting the
stored-failure replay defect of `_callable_cached`. -/
def func_raises_type_error : PyFunc := fun _ _ => .error ⟨true, "boom"⟩

/-- First wrapper call with argument `0` of the callable raising
`TypeError`. -/
def c1_outcome_1 : CallOutcome :=
  _callable_cached func_raises_type_error CacheState.init [.int 0] []

/-- Second wrapper call with argument `0` of the callable raising
`TypeError`, over the cache state left by the first call. -/
def c1_outcome_2 : CallOutcome :=
  _callable_cached func_raises_type_error c1_outcome_1.state [.int 0] []

/-- First wrapper call of the pure callable with arguments `1, 2`. -/
def c2_outcome_1 : CallOutcome :=
  _callable_cached func_pure7 CacheState.init [.int 1, .int 2] []

/-- Second wrapper call of the pure callable with arguments `1, 2`, over the
cache state left by the first call. -/
def c2_outcome_2 : CallOutcome :=
  _callable_cached func_pure7 c2_outcome_1.state [.int 1, .int 2] []

/-- Wrapper call of the pure callable with the single 2-tuple argument
`(1, 2)`. -/
def c10_outcome_1 : CallOutcome :=
  _callable_cached func_pure7 CacheState.init [.tuple [.int 1, .int 2]] []

/-- Wrapper call of the pure callable with the two arguments `1, 2`, over
the cache state left by the single-2-tuple call. -/
def c10_outcome_2 : CallOutcome :=
  _callable_cached func_pure7 c10_outcome_1.state [.int 1, .int 2] []

/-- Wrapper call of the pure callable with the two arguments `1, 2`. -/
def c10_outcome_3 : CallOutcome :=
  _callable_cached func_pure7 CacheState.init [.int 1, .int 2] []

/-- Wrapper call of the pure callable with the single 2-tuple argument
`(1, 2)`, over the cache state left by the two-argument call. -/
def c10_outcome_4 : CallOutcome :=
  _callable_cached func_pure7 c10_outcome_3.state [.tuple [.int 1, .int 2]] []

/-- A violation cause for the hint `list[str]` and the pith
`["a", 2, "b"]`, carrying the random sample seed 4 drawn by the generated
wrapper (so that `4 % 3 = 1` indexes the offending item `2`). -/
def cause_sequence_sampled : ViolationCause :=
  { pith := .list [.str "a", .int 2, .str "b"],
    hint := .seqArgs1 (some (.cls .str)),
    conf := ⟨false, false⟩,
    random_int := some 4,
    cause_str_or_none := none }

/-- A violation cause for the hint `list[int]` and the empty list pith. -/
def cause_sequence_empty : ViolationCause :=
  { pith := .list [],
    hint := .seqArgs1 (some (.cls .int)),
    conf := ⟨false, false⟩,
    random_int := none,
    cause_str_or_none := none }

/-- A violation cause for a fixed-length tuple hint declaring three child
hints and the 2-tuple pith `(1, 2)`. -/
def cause_tuple_mismatch : ViolationCause :=
  { pith := .tuple [.int 1, .int 2],
    hint := .tupleFixed [some (.cls .int), some (.cls .int), some (.cls .str)],
    conf := ⟨false, false⟩,
    random_int := none,
    cause_str_or_none := none }

-- ....................{ HELPER THEOREMS                    }....................
mutual

/-- Reflexivity of `Val.beq`. -/
theorem Val.beq_refl : (a : Val) → Val.beq a a = true
  | .int _ => by simp [Val.beq]
  | .str _ => by simp [Val.beq]
  | .noneV => rfl
  | .sentinelKwargsKeys => rfl
  | .sentinelKwargsValues => rfl
  | .list items => by simp [Val.beq, Val.beqList_refl items]
  | .tuple items => by simp [Val.beq, Val.beqList_refl items]

/-- Reflexivity of `Val.beqList`. -/
theorem Val.beqList_refl : (items : List Val) → Val.beqList items items = true
  | [] => rfl
  | a :: as_ => by simp [Val.beqList, Val.beq_refl a, Val.beqList_refl as_]

end


/-- A flattened purely positional cache key is hashable whenever every
positional argument is hashable. -/
theorem flatten_params_hashable_of_args (args : List Val)
    (h : Val.hashableList args = true) :
    (flatten_params args []).hashable = true := by
  unfold flatten_params
  simp only [List.isEmpty_nil]
  match args, h with
  | [], _ => rfl
  | [a], h => simpa [Val.hashable, Val.hashableList] using h
  | a :: b :: rest, h => simpa [Val.hashable] using h

-- ....................{ CLAIMS ~ cache                     }....................

/-- C1: the claim states that after a prior failing call whose hashable key
stored the raised exception, every later wrapper call with the same key
re-raises the stored failure without invoking the wrapped callable again.
The code violates this for a stored `TypeError`, contradicting the wrapper
docstring: the re-raise of the stored exception happens inside the same
`try` block whose trailing `except TypeError` handler implements the
unhashable-key fallback, so the handler swallows the stored `TypeError` and
invokes the wrapped callable directly.  This theorem evaluates the code at
the failing input: the callable raises `TypeError` on the hashable key `0`;
the first call stores the failure (and already invokes the callable twice),
and the second call, despite the stored failure being found in
`params_flat_to_exception`, invokes the callable once more instead of zero
times. -/
theorem callable_cached_stored_typeerror_reinvokes_func :
    cache_get c1_outcome_1.state.params_flat_to_exception
        (flatten_params [.int 0] []) = some ⟨true, "boom"⟩ ∧
    c1_outcome_2.func_calls = 1 ∧
    c1_outcome_1.func_calls = 2 :=
  ⟨rfl, rfl, rfl⟩

/-- C2: for a pure wrapped callable and two wrapper calls with equal,
hashable, purely positional arguments, the callable is invoked exactly once
across both calls and both calls return the same result. -/
theorem callable_cached_pure_positional_memoized (func : PyFunc)
    (args : List Val) (v : Val)
    (hargs : Val.hashableList args = true)
    (hfunc : func args [] = .ok v) :
    let o1 := _callable_cached func CacheState.init args []
    let o2 := _callable_cached func o1.state args []
    o1.result = .ok v ∧ o2.result = .ok v ∧
      o1.func_calls + o2.func_calls = 1 := by
  have hkey := flatten_params_hashable_of_args args hargs
  simp [_callable_cached, hkey, hfunc, cache_get, cache_set,
    CacheState.init, Val.beq_refl]

/-- Witness for C2 at the pure callable returning 7 and the hashable
positional arguments `1, 2`. -/
theorem callable_cached_pure_positional_memoized_witness :
    Val.hashableList [Val.int 1, Val.int 2] = true ∧
    func_pure7 [Val.int 1, Val.int 2] [] = .ok (.int 7) ∧
    (c2_outcome_1.result = .ok (.int 7) ∧
      c2_outcome_2.result = .ok (.int 7) ∧
      c2_outcome_1.func_calls + c2_outcome_2.func_calls = 1) :=
  ⟨rfl, rfl,
    callable_cached_pure_positional_memoized func_pure7
      [Val.int 1, Val.int 2] (.int 7) rfl rfl⟩

/-- C5: when the flattened cache key of a wrapper call is unhashable (so
that canonicalizing, storing or looking it up raises the not-hashable
`TypeError`), the wrapper calls the wrapped callable directly exactly once,
returns or propagates its outcome, leaves the cache state untouched, and
never propagates the hashing error itself. -/
theorem callable_cached_unhashable_uncached_fallback (func : PyFunc)
    (st : CacheState) (args : List Val) (kwargs : List (String × Val))
    (hkey : (flatten_params args kwargs).hashable = false) :
    _callable_cached func st args kwargs =
      { result := func args kwargs, state := st, func_calls := 1 } := by
  unfold _callable_cached
  simp [hkey]

/-- Witness for C5 at the unhashable single list argument `[]`. -/
theorem callable_cached_unhashable_uncached_fallback_witness :
    (flatten_params [Val.list []] []).hashable = false ∧
    _callable_cached func_pure7 CacheState.init [Val.list []] [] =
      { result := func_pure7 [Val.list []] [],
        state := CacheState.init, func_calls := 1 } :=
  ⟨rfl,
    callable_cached_unhashable_uncached_fallback func_pure7 CacheState.init
      [Val.list []] [] rfl⟩

/-- C9: wrapping a callable that declares a variadic positional or variadic
keyword parameter raises the configuration error at wrap time, before any
wrapper exists to call; wrapping any callable declaring no such parameter
succeeds. -/
theorem callable_cached_variadic_rejected_at_wrap (func : FuncDecl) :
    ((∃ kind ∈ func.params,
        kind = ParamKind.var_positional ∨ kind = ParamKind.var_keyword) →
      callable_cached func =
        .error ⟨false, "@callable_cached variadic arguments uncacheable."⟩) ∧
    ((∀ kind ∈ func.params,
        kind ≠ ParamKind.var_positional ∧ kind ≠ ParamKind.var_keyword) →
      callable_cached func = .ok ()) := by
  have hvar : is_func_arg_variadic func = true ↔
      ∃ kind ∈ func.params,
        kind = ParamKind.var_positional ∨ kind = ParamKind.var_keyword := by
    unfold is_func_arg_variadic
    rw [List.any_eq_true]
    constructor
    · rintro ⟨k, hk, h⟩
      cases k
      case var_positional => exact ⟨_, hk, Or.inl rfl⟩
      case var_keyword => exact ⟨_, hk, Or.inr rfl⟩
      all_goals exact absurd h (by decide)
    · rintro ⟨k, hk, h | h⟩ <;> exact ⟨k, hk, by rw [h]; decide⟩
  constructor
  · intro h
    unfold callable_cached
    rw [if_pos (hvar.mpr h)]
  · intro h
    unfold callable_cached
    rw [if_neg]
    intro hcontra
    obtain ⟨k, hk, hor⟩ := hvar.mp hcontra
    rcases hor with h1 | h1
    · exact (h k hk).1 h1
    · exact (h k hk).2 h1

/-- Witness for C9 at a callable resembling `def f(x, *args)` (rejected)
and one resembling `def f(x)` (accepted). -/
theorem callable_cached_variadic_rejected_at_wrap_witness :
    callable_cached ⟨[.positional_or_keyword, .var_positional]⟩ =
      .error ⟨false, "@callable_cached variadic arguments uncacheable."⟩ ∧
    callable_cached ⟨[.positional_or_keyword]⟩ = .ok () :=
  ⟨(callable_cached_variadic_rejected_at_wrap
        ⟨[.positional_or_keyword, .var_positional]⟩).1
      ⟨.var_positional, by simp, Or.inl rfl⟩,
    (callable_cached_variadic_rejected_at_wrap
        ⟨[.positional_or_keyword]⟩).2 (by decide)⟩

/-- C10: a call passing the single positional 2-tuple argument `(a, b)` and
a call passing the two positional arguments `a, b` flatten to the same
cache key, so whichever call happens second returns the cached result of
the first without invoking the wrapped callable. -/
theorem callable_cached_single_tuple_key_collision (func : PyFunc)
    (a b v w : Val)
    (ha : a.hashable = true) (hb : b.hashable = true)
    (hf1 : func [.tuple [a, b]] [] = .ok v)
    (hf2 : func [a, b] [] = .ok w) :
    flatten_params [.tuple [a, b]] [] = flatten_params [a, b] [] ∧
    (let o1 := _callable_cached func CacheState.init [.tuple [a, b]] []
     let o2 := _callable_cached func o1.state [a, b] []
     o2.func_calls = 0 ∧ o2.result = .ok v) ∧
    (let p1 := _callable_cached func CacheState.init [a, b] []
     let p2 := _callable_cached func p1.state [.tuple [a, b]] []
     p2.func_calls = 0 ∧ p2.result = .ok w) := by
  have hkey : (Val.tuple [a, b]).hashable = true := by
    simp [Val.hashable, Val.hashableList, ha, hb]
  refine ⟨rfl, ?_, ?_⟩ <;>
    simp [_callable_cached, flatten_params, hkey, hf1, hf2, cache_get,
      cache_set, CacheState.init, Val.beq_refl]

/-- Witness for C10 at the hashable values `1, 2` and the pure callable
returning 7, in both call orders. -/
theorem callable_cached_single_tuple_key_collision_witness :
    (Val.int 1).hashable = true ∧ (Val.int 2).hashable = true ∧
    func_pure7 [.tuple [.int 1, .int 2]] [] = .ok (.int 7) ∧
    func_pure7 [.int 1, .int 2] [] = .ok (.int 7) ∧
    (flatten_params [.tuple [.int 1, .int 2]] [] =
        flatten_params [.int 1, .int 2] [] ∧
      (c10_outcome_2.func_calls = 0 ∧ c10_outcome_2.result = .ok (.int 7)) ∧
      (c10_outcome_4.func_calls = 0 ∧ c10_outcome_4.result = .ok (.int 7))) :=
  ⟨rfl, rfl, rfl, rfl,
    callable_cached_single_tuple_key_collision func_pure7
      (.int 1) (.int 2) (.int 7) (.int 7) rfl rfl rfl rfl⟩

-- ....................{ CLAIMS ~ reducer                   }....................

/-- C4: with the numeric-tower flag set, `reduce_hint` maps the builtin
`float` type to the precomputed float-or-int union and the builtin
`complex` type to the precomputed complex-or-float-or-int union; with the
flag unset, both types are returned unchanged. -/
theorem reduce_hint_numeric_tower (conf : BeartypeConf) (lbl : String) :
    (conf.is_pep484_tower = true →
      reduce_hint (.cls .float) conf lbl = .ok Pep484TowerFloat ∧
      reduce_hint (.cls .complex) conf lbl = .ok Pep484TowerComplex) ∧
    (conf.is_pep484_tower = false →
      reduce_hint (.cls .float) conf lbl = .ok (.cls .float) ∧
      reduce_hint (.cls .complex) conf lbl = .ok (.cls .complex)) := by
  constructor <;> intro h <;>
    simp [reduce_hint, get_hint_pep_sign_or_none, die_unless_hint, h]

/-- Witness for C4 at a configuration with the tower flag set and one with
it unset. -/
theorem reduce_hint_numeric_tower_witness :
    (reduce_hint (.cls .float) ⟨true, false⟩ "f(): " = .ok Pep484TowerFloat ∧
      reduce_hint (.cls .complex) ⟨true, false⟩ "f(): " =
        .ok Pep484TowerComplex) ∧
    (reduce_hint (.cls .float) ⟨false, false⟩ "f(): " = .ok (.cls .float) ∧
      reduce_hint (.cls .complex) ⟨false, false⟩ "f(): " =
        .ok (.cls .complex)) :=
  ⟨(reduce_hint_numeric_tower ⟨true, false⟩ "f(): ").1 rfl,
    (reduce_hint_numeric_tower ⟨false, false⟩ "f(): ").2 rfl⟩

/-- C8: for every configuration, reducing the `None` singleton used as a
hint yields the type of the `None` singleton, `NoneType`. -/
theorem reduce_hint_none_singleton (conf : BeartypeConf) (lbl : String) :
    reduce_hint .noneH conf lbl = .ok (.cls .noneType) := rfl

-- ....................{ CLAIMS ~ cause finder              }....................

/-- C6: when the pith is an instance of the expected sequence type and is
either empty or constrained by an ignorable (`None`) child hint, the
sequence finder returns the input cause unchanged, attaching no
explanation.  The theorem holds for every recursive child finder `fc`,
since neither early branch recurses. -/
theorem find_cause_sequence_args_1_trivial_satisfaction
    (fc : ViolationCause → ViolationCause) (cause : ViolationCause)
    (child : Option Hint)
    (hhint : cause.hint = .seqArgs1 child)
    (hinst : cause.pith.isinstance .list = true)
    (hcase : cause.pith.is_falsy = true ∨ child = none) :
    find_cause_sequence_args_1 fc cause = cause := by
  obtain ⟨pith, hint, conf, random_int, cause_str⟩ := cause
  simp only at hhint hinst hcase
  subst hhint
  unfold find_cause_sequence_args_1 find_cause_type_instance_origin
  simp [Hint.origin_type, hinst, ViolationCause.permute_cause_str]
  rcases hcase with h | h
  · rcases child with _ | hc <;> simp [h]
  · subst h
    simp

/-- Witness for C6 at the hint `list[int]` and the empty list pith, with
the fuel-0 dispatcher as the (unused) child finder. -/
theorem find_cause_sequence_args_1_trivial_satisfaction_witness :
    cause_sequence_empty.hint = .seqArgs1 (some (.cls .int)) ∧
    cause_sequence_empty.pith.isinstance .list = true ∧
    (cause_sequence_empty.pith.is_falsy = true ∨
      (some (Hint.cls .int) : Option Hint) = none) ∧
    find_cause_sequence_args_1 (find_cause 0) cause_sequence_empty =
      cause_sequence_empty :=
  ⟨rfl, rfl, Or.inl rfl,
    find_cause_sequence_args_1_trivial_satisfaction (find_cause 0)
      cause_sequence_empty (some (.cls .int)) rfl rfl (Or.inl rfl)⟩

/-- C3: for a non-empty list pith with an unignorable child hint and a
present random sample seed `r`, the sequence finder enumerates only the
single element at index `r % len` -- the same index
`hintSignLogicSequenceArgs1.sample_index` that the generated check samples
through its `pith[random_int % len(pith)]` expression -- and, when the
child finder reports that element as violating the child hint, returns that
deep cause with an explanation naming exactly that index (the enumerator
equation shows no other element is examined, and the result equation shows
no other index is named). -/
theorem find_cause_sequence_args_1_random_samples_one_index
    (fc : ViolationCause → ViolationCause)
    (cause : ViolationCause) (hc : Hint) (items : List Val) (r : Nat)
    (expl : String)
    (hhint : cause.hint = .seqArgs1 (some hc))
    (hpith : cause.pith = .list items)
    (hne : items ≠ [])
    (hrand : cause.random_int = some r)
    (hdeep : (fc (cause.permute_pith_hint
        (items.getD (hintSignLogicSequenceArgs1.sample_index r items.length)
          Val.noneV) hc)).cause_str_or_none = some expl) :
    sequence_pith_enumerator cause =
      [(hintSignLogicSequenceArgs1.sample_index r items.length,
        items.getD (hintSignLogicSequenceArgs1.sample_index r items.length)
          Val.noneV)] ∧
    find_cause_sequence_args_1 fc cause =
      (fc (cause.permute_pith_hint
          (items.getD (hintSignLogicSequenceArgs1.sample_index r items.length)
            Val.noneV) hc)).permute_cause_str (some
        (prefix_pith_type cause.pith cause.conf.is_color ++ "index " ++
          color_type
            (toString (hintSignLogicSequenceArgs1.sample_index r items.length))
            cause.conf.is_color ++ " item " ++ expl)) := by
  have hfalsy : items.isEmpty = false := by
    cases items with
    | nil => exact absurd rfl hne
    | cons _ _ => rfl
  obtain ⟨pith, hint, conf, random_int, cause_str⟩ := cause
  simp only at hhint hpith hrand hdeep ⊢
  subst hhint hpith hrand
  have henum : sequence_pith_enumerator
      ⟨.list items, .seqArgs1 (some hc), conf, some r, cause_str⟩ =
      [(r % items.length, items.getD (r % items.length) .noneV)] := by
    unfold sequence_pith_enumerator
    simp [Val.len, Val.getItem]
  refine ⟨by simpa [hintSignLogicSequenceArgs1] using henum, ?_⟩
  unfold find_cause_sequence_args_1 find_cause_type_instance_origin
  simp only [Hint.origin_type, Val.isinstance,
    ViolationCause.permute_cause_str, Val.is_falsy, hfalsy, Option.isSome]
  rw [henum]
  unfold find_cause_items
  simp only [ViolationCause.permute_pith_hint, hintSignLogicSequenceArgs1,
    List.getD_eq_getElem?_getD] at hdeep
  simp [ViolationCause.permute_pith_hint, ViolationCause.permute_cause_str,
    hdeep, hintSignLogicSequenceArgs1]

/-- Witness for C3 at the pith `["a", 2, "b"]`, the hint `list[str]` and
the seed 4: only index `4 % 3 = 1` is enumerated and the explanation names
exactly index 1. -/
theorem find_cause_sequence_args_1_random_samples_one_index_witness :
    cause_sequence_sampled.hint = .seqArgs1 (some (.cls .str)) ∧
    cause_sequence_sampled.pith = .list [.str "a", .int 2, .str "b"] ∧
    cause_sequence_sampled.random_int = some 4 ∧
    (find_cause 1 (cause_sequence_sampled.permute_pith_hint (.int 2)
        (.cls .str))).cause_str_or_none = some "2 not instance of str" ∧
    (sequence_pith_enumerator cause_sequence_sampled = [(1, .int 2)] ∧
      find_cause_sequence_args_1 (find_cause 1) cause_sequence_sampled =
        (find_cause 1 (cause_sequence_sampled.permute_pith_hint (.int 2)
            (.cls .str))).permute_cause_str
          (some "list index 1 item 2 not instance of str")) :=
  ⟨rfl, rfl, rfl, rfl,
    find_cause_sequence_args_1_random_samples_one_index (find_cause 1)
      cause_sequence_sampled (.cls .str) [.str "a", .int 2, .str "b"] 4
      "2 not instance of str" rfl rfl (List.cons_ne_nil _ _) rfl rfl⟩

/-- C7: for a tuple pith checked against a fixed-length tuple hint that is
not the empty-tuple hint and declares a child-hint count different from the
pith length, the finder returns a length-mismatch explanation naming both
lengths; the result is the same for every recursive child finder `fc`,
showing that no per-element recursion is performed. -/
theorem find_cause_tuple_fixed_length_mismatch
    (fc : ViolationCause → ViolationCause)
    (cause : ViolationCause) (hint_childs : List (Option Hint))
    (items : List Val)
    (hhint : cause.hint = .tupleFixed hint_childs)
    (hpith : cause.pith = .tuple items)
    (hne : hint_childs ≠ [])
    (hlen : items.length ≠ hint_childs.length) :
    find_cause_tuple_fixed fc cause = cause.permute_cause_str (some
      ("tuple " ++ represent_pith cause.pith ++ " length " ++
        toString items.length ++ " != " ++ toString hint_childs.length)) := by
  have hempty : hint_childs.isEmpty = false := by
    cases hint_childs with
    | nil => exact absurd rfl hne
    | cons _ _ => rfl
  obtain ⟨pith, hint, conf, random_int, cause_str⟩ := cause
  simp only at hhint hpith ⊢
  subst hhint hpith
  unfold find_cause_tuple_fixed find_cause_type_instance_origin
    is_hint_pep484585_tuple_empty
  simp [Hint.origin_type, Val.isinstance, ViolationCause.permute_cause_str,
    Val.len, hempty, hlen]

/-- Witness for C7 at the 2-tuple pith `(1, 2)` and a hint declaring three
child hints: the explanation contains both lengths 2 and 3 and the result
is independent of the child finder. -/
theorem find_cause_tuple_fixed_length_mismatch_witness :
    cause_tuple_mismatch.hint =
      .tupleFixed [some (.cls .int), some (.cls .int), some (.cls .str)] ∧
    cause_tuple_mismatch.pith = .tuple [.int 1, .int 2] ∧
    (2 : Nat) ≠ (3 : Nat) ∧
    find_cause_tuple_fixed (find_cause 0) cause_tuple_mismatch =
      cause_tuple_mismatch.permute_cause_str
        (some "tuple (1, 2) length 2 != 3") :=
  ⟨rfl, rfl, by decide,
    find_cause_tuple_fixed_length_mismatch (find_cause 0)
      cause_tuple_mismatch
      [some (.cls .int), some (.cls .int), some (.cls .str)]
      [.int 1, .int 2] rfl rfl (List.cons_ne_nil _ _) (by decide)⟩
